import Mathlib

/-!
# Verification of the Rentverse security audit/detection pipeline

Shallow embedding of the security subsystem of the Rentverse backend:

* `src/rentverse-backend/src/app.js` — audit helpers (`logAuditEvent`,
  `createAlert`, `runLoginDetectionRules`);
* the security router (GET/PATCH `/api/security/alerts`,
  GET `/api/security/audit-logs`, `/export.csv`, `/summary`,
  POST `/api/security/me/report-incident`);
* the `POST /api/auth/login` handler's LOGIN_FAILURE path.

Database rows (Prisma models `AuditLog`, `Alert`, `User`) are modelled as
Lean structures; the store is a plain list of rows; timestamps are integer
milliseconds since the epoch; enum-valued columns are strings, exactly the
strings the JS code manipulates.  Fallible persistence is modelled by an
`Except` parameter standing for the outcome of the underlying
`prisma....create` call.
-/

/-- One row of the `audit_logs` table (Prisma model `AuditLog`).
Fields follow the migration: `id TEXT`, `userId TEXT NULL`,
`eventType "AuditEventType"`, `ipAddress/userAgent/geoLocation TEXT NULL`,
`metadata JSONB NULL` (kept as its serialized text), `createdAt TIMESTAMP`. -/
structure AuditLog where
  id : String
  userId : Option String
  eventType : String
  ipAddress : Option String
  userAgent : Option String
  geoLocation : Option String
  metadata : String
  createdAt : Int
  deriving DecidableEq, Repr

/-- One row of the `alerts` table (Prisma model `Alert`). -/
structure Alert where
  id : String
  userId : Option String
  auditLogId : Option String
  type : String
  severity : String
  status : String
  description : String
  createdAt : Int
  resolvedAt : Option Int
  deriving DecidableEq, Repr

/-- The user columns the security router selects (`id, email, firstName,
lastName`). -/
structure User where
  id : String
  email : String
  firstName : String
  lastName : String
  deriving DecidableEq, Repr

/-- The slice of the database the security subsystem touches. -/
structure Db where
  users : List User
  auditLogs : List AuditLog
  alerts : List Alert
  deriving DecidableEq, Repr

/-- A JSON response envelope `{success, message?}` together with the HTTP
status code the handler sets. -/
structure ApiResponse where
  status : Nat
  success : Bool
  message : Option String
  deriving DecidableEq, Repr

/-! ## Event recorder (`logAuditEvent`, app.js) -/

/-- `logAuditEvent` (app.js): writes one `AuditLog` row inside a
`try`/`catch`; on success it returns the row, on a persistence failure it
logs and returns `null` — it never throws.  The `write` argument models the
outcome of `prisma.auditLog.create` (the new row, or a storage error); the
returned list is the store after the call. -/
def logAuditEvent (logs : List AuditLog) (write : Except String AuditLog) :
    Option AuditLog × List AuditLog :=
  match write with
  | .ok log => (some log, logs ++ [log])
  | .error _ => (none, logs)

/-! ## Detection engine (`runLoginDetectionRules`, app.js) -/

/-- The result object `{ alertCreated, loginWarning }` of
`runLoginDetectionRules`, extended with the list of alert rows the call
inserted (zero or one). -/
structure DetectionResult where
  alertCreated : Bool
  loginWarning : Option String
  newAlerts : List Alert
  deriving DecidableEq, Repr

/-- The `where` clause of the brute-force count
(`prisma.auditLog.count` in `runLoginDetectionRules`):
`eventType = 'LOGIN_FAILURE'`, `createdAt >= now - 10 minutes`, plus
`userId` when the user is known and `ipAddress` when available. -/
def bruteForceWhere (now : Int) (userId : Option String) (ipAddress : Option String)
    (e : AuditLog) : Bool :=
  e.eventType == "LOGIN_FAILURE" &&
  decide (e.createdAt ≥ now - 10 * 60 * 1000) &&
  (match userId with
   | none => true
   | some u => e.userId == some u) &&
  (match ipAddress with
   | none => true
   | some ip => e.ipAddress == some ip)

/-- `descriptionParts.join(' ')` of the brute-force alert description. -/
def bruteForceDescription (failureCount : Nat) (userId : Option String)
    (ipAddress : Option String) : String :=
  String.intercalate " "
    ([ "Detected " ++ toString failureCount ++
       " failed login attempts in the last 10 minutes." ] ++
     (if userId.isSome then ["Target: specific user account."] else []) ++
     (match ipAddress with
      | none => []
      | some ip => ["Source IP: " ++ ip ++ "."]))

/-- `runLoginDetectionRules` (app.js).  Parameters mirror the JS call:
`userId = user ? user.id : null`, `ipAddress` from
`extractRequestContext(req)`, `eventType`, and `latestLog` (the audit row
the caller just wrote — `undefined`/`null` when omitted or when logging
failed).  `none` models a falsy user id / IP: `extractRequestContext`
never produces the empty string, since a falsy trimmed header falls
through the `||` chain to `null`.  `logs` is the audit store the count
runs against and
`newAlertId` the id the store assigns to a created alert row
(`severity 'HIGH'`, `status` defaulting to `'OPEN'` per the schema). -/
def runLoginDetectionRules (logs : List AuditLog) (now : Int)
    (userId : Option String) (ipAddress : Option String) (eventType : String)
    (latestLog : Option AuditLog) (newAlertId : String) : DetectionResult :=
  if eventType = "LOGIN_FAILURE" then
    let failureCount := logs.countP (bruteForceWhere now userId ipAddress)
    if 5 ≤ failureCount then
      { alertCreated := true
        loginWarning := none
        newAlerts := [{ id := newAlertId
                        userId := userId
                        auditLogId := latestLog.map (fun l => l.id)
                        type := "BRUTE_FORCE"
                        severity := "HIGH"
                        status := "OPEN"
                        description := bruteForceDescription failureCount userId ipAddress
                        createdAt := now
                        resolvedAt := none }] }
    else
      { alertCreated := false, loginWarning := none, newAlerts := [] }
  else
    { alertCreated := false, loginWarning := none, newAlerts := [] }

/-! ## The login handler's LOGIN_FAILURE path (routes/auth, CASE 1/2) -/

/-- The `POST /api/auth/login` handler's LOGIN_FAILURE path: it awaits
`logAuditEvent` (binding the row to `failureLog`), then calls
`runLoginDetectionRules({ req, user, eventType: 'LOGIN_FAILURE' })` —
note the call site passes **no** `latestLog` property, so the engine sees
`latestLog = undefined` — and finally responds
`401 {success:false, message:'Invalid credentials'}` regardless of how the
recording went.  Returns the response, the detection result and the audit
store after the write. -/
def loginFailureCase (logs : List AuditLog) (now : Int) (userId : Option String)
    (ipAddress : Option String) (write : Except String AuditLog)
    (newAlertId : String) : ApiResponse × DetectionResult × List AuditLog :=
  let written := logAuditEvent logs write
  let det := runLoginDetectionRules written.2 now userId ipAddress
    "LOGIN_FAILURE" none newAlertId
  ({ status := 401, success := false, message := some "Invalid credentials" },
   det, written.2)

/-! ## Alert lifecycle: `PATCH /api/security/alerts/:id` -/

/-- The three allowed alert statuses (`allowedStatuses` in the PATCH
handler). -/
def allowedStatuses : List String := ["OPEN", "ACKNOWLEDGED", "RESOLVED"]

/-- Outcome of the PATCH `/alerts/:id` handler: a 400 validation response,
the catch-all 500 (`prisma.alert.update` threw, e.g. record not found), or
200 with the updated row. -/
inductive PatchResult where
  | badRequest (msg : String)
  | internalError
  | ok (updated : Alert)
  deriving DecidableEq, Repr

/-- HTTP status code of a `PatchResult`. -/
def PatchResult.httpStatus : PatchResult → Nat
  | .badRequest _ => 400
  | .internalError => 500
  | .ok _ => 200

/-- `PATCH /api/security/alerts/:id` (security router): rejects a missing
or falsy `status` (`400 'Status is required'`), rejects a status outside
`allowedStatuses` (`400 'Invalid status value'`), otherwise runs
`prisma.alert.update({where:{id}, data:{status, resolvedAt: status ===
'RESOLVED' ? new Date() : null}})`.  When no alert has the given id the
update throws and the handler's `catch` answers 500; the store is
unchanged.  Returns the result and the alert store after the call. -/
def patchAlertStatus (alerts : List Alert) (id : String) (status : Option String)
    (now : Int) : PatchResult × List Alert :=
  match status with
  | none => (.badRequest "Status is required", alerts)
  | some s =>
    if s = "" then (.badRequest "Status is required", alerts)
    else if allowedStatuses.contains s then
      match alerts.find? (fun a => a.id == id) with
      | none => (.internalError, alerts)
      | some a =>
        let a' : Alert :=
          { a with status := s
                   resolvedAt := if s = "RESOLVED" then some now else none }
        (.ok a', alerts.map (fun x => if x.id == id then a' else x))
    else (.badRequest "Invalid status value", alerts)

/-! ## User incident reports: `POST /api/security/me/report-incident` -/

/-- Outcome of the report-incident handler: 401 (no user on the request),
404 (`activityId` names no audit row owned by the caller), or 200 with the
created alert. -/
inductive ReportResult where
  | unauthorized
  | notFound
  | ok (alert : Alert)
  deriving DecidableEq, Repr

/-- HTTP status code of a `ReportResult`. -/
def ReportResult.httpStatus : ReportResult → Nat
  | .unauthorized => 401
  | .notFound => 404
  | .ok _ => 200

/-- The fixed fallback description of a user-reported incident. -/
def defaultReportDescription : String :=
  "User reported suspicious activity from account security page."

/-- `(note && note.trim()) || <default>`: the trimmed note when truthy and
non-blank, else the fixed default. -/
def reportDescription (note : Option String) : String :=
  match note with
  | none => defaultReportDescription
  | some n => if n.trim = "" then defaultReportDescription else n.trim

/-- The row `prisma.alert.create` inserts in the report-incident handler:
`SUSPICIOUS_ACTIVITY`/`HIGH`/`OPEN` for the calling user, optionally
linked to an audit row. -/
def reportedAlert (uid : String) (linkedId : Option String) (note : Option String)
    (now : Int) (newId : String) : Alert :=
  { id := newId
    userId := some uid
    auditLogId := linkedId
    type := "SUSPICIOUS_ACTIVITY"
    severity := "HIGH"
    status := "OPEN"
    description := reportDescription note
    createdAt := now
    resolvedAt := none }

/-- `POST /api/security/me/report-incident` (security router).  When
`activityId` is truthy (present and non-empty) the handler looks up
`prisma.auditLog.findFirst({where:{id: activityId, userId}})` and answers
`404 'Activity not found or does not belong to this user'` when nothing
matches.  Otherwise it creates a `SUSPICIOUS_ACTIVITY`/`HIGH`/`OPEN` alert
for the caller, linked to the found row (else `null`), whose description is
`(note && note.trim()) || 'User reported suspicious activity from account
security page.'`.  Returns the result and the alert store after the call
(`newId`/`now` are the id and timestamp the store assigns). -/
def reportIncident (db : Db) (userId : Option String) (activityId : Option String)
    (note : Option String) (now : Int) (newId : String) :
    ReportResult × List Alert :=
  match userId with
  | none => (.unauthorized, db.alerts)
  | some uid =>
    let lookup : Option (Option AuditLog) :=
      match activityId with
      | none => some none
      | some aid =>
        if aid = "" then some none
        else
          match db.auditLogs.find? (fun e => e.id == aid && e.userId == some uid) with
          | none => none
          | some log => some (some log)
    match lookup with
    | none => (.notFound, db.alerts)
    | some found =>
      let alert := reportedAlert uid (found.map (fun l => l.id)) note now newId
      (.ok alert, db.alerts ++ [alert])

/-! ## Admin alert listing: `GET /api/security/alerts` -/

/-- `allowedSeverities` in the GET `/alerts` handler. -/
def allowedSeverities : List String := ["LOW", "MEDIUM", "HIGH"]

/-- `allowedTypes` in the GET `/alerts` handler. -/
def allowedTypes : List String :=
  ["BRUTE_FORCE", "SUSPICIOUS_ACTIVITY", "NEW_DEVICE", "IMPOSSIBLE_TRAVEL",
   "MULTI_ACCOUNT_FAILURE", "SUSPICIOUS_MFA", "OTHER"]

/-- The handler's guard `if (v && !allowed.includes(v))`: the uppercased
query value is truthy (non-empty) yet not an allowed enum value. -/
def truthyNotMem (v : Option String) (allowed : List String) : Bool :=
  match v with
  | none => false
  | some s => (s != "") && !(allowed.contains s)

/-- The `where` equality filter `if (v) where.field = v` of GET
`/alerts`. -/
def optFilterEq (v : Option String) (field : String) : Bool :=
  match v with
  | none => true
  | some s => if s = "" then true else field == s

/-- Response of GET `/api/security/alerts`: the envelope plus the `data`
array of alert rows. -/
structure AlertsListResponse where
  status : Nat
  success : Bool
  data : List Alert
  deriving DecidableEq, Repr

/-- Insert `a` into a list already ordered by `key` descending, keeping the
order (models the store's `orderBy: {createdAt: 'desc'}`). -/
def insertByDesc (key : α → Int) (a : α) : List α → List α
  | [] => [a]
  | b :: bs => if key a ≤ key b then b :: insertByDesc key a bs else a :: b :: bs

/-- Sort by `key` descending (insertion sort). -/
def sortByDesc (key : α → Int) : List α → List α
  | [] => []
  | a :: as => insertByDesc key a (sortByDesc key as)

/-- `toUpperCase()` on the ASCII enum strings the handlers compare:
character-wise upper-casing. -/
def jsToUpperCase (s : String) : String :=
  String.mk (s.toList.map Char.toUpper)

/-- `GET /api/security/alerts` (security router, crawl_massive copy): the
`status`/`severity`/`type` query values are uppercased when present; a
truthy value outside its allowed enumeration short-circuits to
`200 {success:true, data: []}`; otherwise the present values become
equality filters and the matching alerts are returned newest first. -/
def listAlerts (db : Db) (status severity type : Option String) :
    AlertsListResponse :=
  let statusU := status.map jsToUpperCase
  let severityU := severity.map jsToUpperCase
  let typeU := type.map jsToUpperCase
  if truthyNotMem statusU allowedStatuses ||
     truthyNotMem severityU allowedSeverities ||
     truthyNotMem typeU allowedTypes then
    { status := 200, success := true, data := [] }
  else
    { status := 200
      success := true
      data := sortByDesc (fun a => a.createdAt)
        (db.alerts.filter (fun a =>
          optFilterEq statusU a.status &&
          optFilterEq severityU a.severity &&
          optFilterEq typeU a.type)) }

/-! ## Query parsing helpers (JS semantics) -/

/-- JavaScript `parseInt(s, 10)`: skip leading whitespace, read an optional
sign and then the longest prefix of decimal digits; `none` stands for
`NaN` (no digits). -/
def jsParseInt (s : String) : Option Int :=
  let cs := s.toList.dropWhile (fun c => c.isWhitespace)
  let (sign, rest) :=
    match cs with
    | '-' :: r => ((-1 : Int), r)
    | '+' :: r => ((1 : Int), r)
    | r => ((1 : Int), r)
  let ds := rest.takeWhile Char.isDigit
  if ds.isEmpty then none
  else some (sign * (ds.foldl (fun acc c => acc * 10 + (c.toNat - 48)) 0 : Nat))

/-- JavaScript `x || d` on the result of `parseInt`: `NaN` and `0` are both
falsy and yield the default. -/
def jsOr (v : Option Int) (d : Int) : Int :=
  match v with
  | none => d
  | some n => if n = 0 then d else n

/-- `needle` is a prefix of `hay` (character lists). -/
def hasPrefixChars : List Char → List Char → Bool
  | [], _ => true
  | _ :: _, [] => false
  | c :: cs, d :: ds => c == d && hasPrefixChars cs ds

/-- `needle` occurs contiguously somewhere in `hay` (character lists). -/
def hasInfixChars (needle : List Char) : List Char → Bool
  | [] => needle.isEmpty
  | d :: ds => hasPrefixChars needle (d :: ds) || hasInfixChars needle ds

/-- Case-sensitive substring test (`Prisma {contains: needle}` in default
mode). -/
def containsSub (hay needle : String) : Bool :=
  hasInfixChars needle.toList hay.toList

/-- Case-insensitive substring test (`{contains: needle, mode:
'insensitive'}`). -/
def containsCI (hay needle : String) : Bool :=
  containsSub hay.toLower needle.toLower

/-! ## Audit-log listing filters (`GET /api/security/audit-logs`) -/

/-- The query parameters of GET `/audit-logs` (respectively the subset
GET `/audit-logs/export.csv` destructures).  `fromTs`/`toTs` carry the
already-parsed `from`/`to` dates (the JS wraps them in `new Date`); the
field names avoid the Lean keyword `from`. -/
structure ListQuery where
  page : Option String := none
  limit : Option String := none
  eventType : Option String := none
  userId : Option String := none
  q : Option String := none
  ipAddress : Option String := none
  fromTs : Option Int := none
  toTs : Option Int := none
  severity : Option String := none
  deriving DecidableEq, Repr

/-- GET `/audit-logs` eventType filter: a truthy value is split on `','`,
each part trimmed, empty parts removed (`filter(Boolean)`); one value is an
equality filter, several a membership filter, none at all no filter. -/
def listEventTypeFilter (spec : Option String) (e : AuditLog) : Bool :=
  match spec with
  | none => true
  | some s =>
    if s = "" then true
    else
      let list := ((s.splitOn ",").map String.trim).filter (fun x => x != "")
      if list.length = 1 then e.eventType == list.headD ""
      else if 1 < list.length then list.contains e.eventType
      else true

/-- GET `/audit-logs/export.csv` eventType filter: split and trimmed but
**not** `filter(Boolean)`-cleaned, so `'A,'` becomes a membership test
against `['A', '']`. -/
def exportEventTypeFilter (spec : Option String) (e : AuditLog) : Bool :=
  match spec with
  | none => true
  | some s =>
    if s = "" then true
    else
      let list := (s.splitOn ",").map String.trim
      if list.length = 1 then e.eventType == list.headD ""
      else list.contains e.eventType

/-- `if (userId) where.userId = String(userId)`. -/
def userIdFilter (spec : Option String) (e : AuditLog) : Bool :=
  match spec with
  | none => true
  | some s => if s = "" then true else e.userId == some s

/-- `if (ipAddress) where.ipAddress = {contains: ...}`; a row whose
`ipAddress` is null never matches a `contains` filter. -/
def ipFilter (spec : Option String) (e : AuditLog) : Bool :=
  match spec with
  | none => true
  | some s =>
    if s = "" then true
    else
      match e.ipAddress with
      | none => false
      | some ip => containsSub ip s

/-- The `createdAt` range filter (`gte: from`, `lte: to`). -/
def dateFilter (fromTs toTs : Option Int) (e : AuditLog) : Bool :=
  (match fromTs with
   | none => true
   | some t => decide (e.createdAt ≥ t)) &&
  (match toTs with
   | none => true
   | some t => decide (e.createdAt ≤ t))

/-- The related-user text search: the row's user (when any) has `query` as
a case-insensitive substring of email, first or last name. -/
def userTextMatch (db : Db) (query : String) (e : AuditLog) : Bool :=
  match e.userId with
  | none => false
  | some uid =>
    match db.users.find? (fun u => u.id == uid) with
    | none => false
    | some u =>
      containsCI u.email query || containsCI u.firstName query ||
      containsCI u.lastName query

/-- GET `/audit-logs` `q` filter: the truthy raw value is trimmed and only
a non-empty trimmed query filters. -/
def listQFilter (db : Db) (q : Option String) (e : AuditLog) : Bool :=
  match q with
  | none => true
  | some s =>
    if s = "" then true
    else if s.trim = "" then true
    else userTextMatch db s.trim e

/-- GET `/audit-logs/export.csv` `q` filter: the truthy raw value is used
untrimmed. -/
def exportQFilter (db : Db) (q : Option String) (e : AuditLog) : Bool :=
  match q with
  | none => true
  | some s => if s = "" then true else userTextMatch db s e

/-- The linked-alert severity filter of GET `/audit-logs`:
`where.alerts = {some: {severity}}`. -/
def severityFilter (db : Db) (spec : Option String) (e : AuditLog) : Bool :=
  match spec with
  | none => true
  | some s =>
    if s = "" then true
    else db.alerts.any (fun a => a.auditLogId == some e.id && a.severity == s)

/-- The full `where` clause GET `/audit-logs` builds. -/
def auditLogWhere (db : Db) (qp : ListQuery) (e : AuditLog) : Bool :=
  listEventTypeFilter qp.eventType e &&
  userIdFilter qp.userId e &&
  ipFilter qp.ipAddress e &&
  dateFilter qp.fromTs qp.toTs e &&
  listQFilter db qp.q e &&
  severityFilter db qp.severity e

/-- The `where` clause GET `/audit-logs/export.csv` builds: the same
construction except that `severity` is never destructured from the query
(so never filtered on), the eventType list keeps empty parts and `q` is
not trimmed. -/
def exportWhere (db : Db) (qp : ListQuery) (e : AuditLog) : Bool :=
  exportEventTypeFilter qp.eventType e &&
  userIdFilter qp.userId e &&
  ipFilter qp.ipAddress e &&
  dateFilter qp.fromTs qp.toTs e &&
  exportQFilter db qp.q e

/-- Response of GET `/api/security/audit-logs`. -/
structure ListResponse where
  status : Nat
  success : Bool
  rows : List AuditLog
  page : Int
  limit : Int
  total : Nat
  totalPages : Nat
  deriving DecidableEq, Repr

/-- `GET /api/security/audit-logs` (security router):
`pageNum = Math.max(parseInt(page,10) || 1, 1)`,
`limitNum = Math.min(Math.max(parseInt(limit,10) || 50, 1), 200)`,
`skip = (pageNum-1)*limitNum`; counts and fetches the filtered rows newest
first with `skip`/`take`, and answers with
`totalPages = Math.ceil(total/limitNum)`. -/
def listAuditLogs (db : Db) (qp : ListQuery) : ListResponse :=
  let pageNum : Int := max (jsOr (jsParseInt (qp.page.getD "1")) 1) 1
  let limitNum : Int := min (max (jsOr (jsParseInt (qp.limit.getD "50")) 50) 1) 200
  let skip : Nat := ((pageNum - 1) * limitNum).toNat
  let matched := db.auditLogs.filter (auditLogWhere db qp)
  let total := matched.length
  { status := 200
    success := true
    rows := ((sortByDesc (fun e => e.createdAt) matched).drop skip).take limitNum.toNat
    page := pageNum
    limit := limitNum
    total := total
    totalPages := (total + limitNum.toNat - 1) / limitNum.toNat }

/-- `GET /api/security/audit-logs/export.csv`: the rows the CSV body is
generated from — the export `where` clause, newest first, hard-capped with
`take: 10000` and no pagination. -/
def exportCsvRows (db : Db) (qp : ListQuery) : List AuditLog :=
  (sortByDesc (fun e => e.createdAt) (db.auditLogs.filter (exportWhere db qp))).take 10000

/-- `csvEscape` (security router): null/undefined become the empty string,
any other value is quoted with internal double quotes doubled.  The
`Option.getD` models the null check. -/
def csvEscape (value : Option String) : String :=
  match value with
  | none => ""
  | some v => "\"" ++ (v.replace "\"" "\"\"") ++ "\""

/-! ## Summary: `GET /api/security/audit-logs/summary` -/

/-- The envelope and window fields of the summary response.  The three
aggregate queries (failed logins over time, top source IPs, event-type
breakdown) are read-only statistics no claim depends on and are not
modelled. -/
structure SummaryResponse where
  status : Nat
  success : Bool
  window : String
  start : Int
  endTime : Int
  deriving DecidableEq, Repr

/-- `GET /api/security/audit-logs/summary` (security router):
`window = String(req.query.window || '24h')` (so an absent **or empty**
parameter defaults to `'24h'`), `start = now - 7 days` exactly when
`window === '7d'` and `now - 24 hours` otherwise, with no validation; the
response echoes `window` and is always a success envelope. -/
def getAuditLogSummary (now : Int) (window : Option String) : SummaryResponse :=
  let w := match window with
    | none => "24h"
    | some s => if s = "" then "24h" else s
  let start := if w = "7d" then now - 7 * 24 * 60 * 60 * 1000
               else now - 24 * 60 * 60 * 1000
  { status := 200, success := true, window := w, start := start, endTime := now }

/-! ## Helper lemmas -/

theorem length_insertByDesc (key : α → Int) (a : α) (l : List α) :
    (insertByDesc key a l).length = l.length + 1 := by
  induction l with
  | nil => rfl
  | cons b bs ih =>
    simp only [insertByDesc]
    split <;> simp [ih]

theorem length_sortByDesc (key : α → Int) (l : List α) :
    (sortByDesc key l).length = l.length := by
  induction l with
  | nil => rfl
  | cons a as ih =>
    simp only [sortByDesc]
    rw [length_insertByDesc, ih]
    rfl

/-! ## Sample rows used by concrete witnesses -/

/-- A concrete LOGIN_FAILURE audit row for user `u1` from IP `1.2.3.4`. -/
def sampleFailure (i : Nat) (t : Int) : AuditLog :=
  { id := "e" ++ toString i
    userId := some "u1"
    eventType := "LOGIN_FAILURE"
    ipAddress := some "1.2.3.4"
    userAgent := some "test-agent"
    geoLocation := none
    metadata := "{}"
    createdAt := t }

/-- Five LOGIN_FAILURE rows for the same user/IP inside one 10-minute
window ending at `now = 600000`. -/
def fiveFailures : List AuditLog :=
  [sampleFailure 1 100000, sampleFailure 2 200000, sampleFailure 3 300000,
   sampleFailure 4 400000, sampleFailure 5 500000]

/-! ## Claims about the detection engine -/

/-- C1: on a LOGIN_FAILURE, if the trailing-10-minute LOGIN_FAILURE count
(scoped by user id when known and source IP when available) is at least 5,
`runLoginDetectionRules` creates exactly one BRUTE_FORCE/HIGH alert; if the
count is at most 4, it creates none. -/
theorem bruteForce_threshold (logs : List AuditLog) (now : Int)
    (userId ipAddress : Option String) (latestLog : Option AuditLog)
    (newAlertId : String) :
    (5 ≤ logs.countP (bruteForceWhere now userId ipAddress) →
      (runLoginDetectionRules logs now userId ipAddress "LOGIN_FAILURE" latestLog
          newAlertId).newAlerts.length = 1 ∧
      ∀ a ∈ (runLoginDetectionRules logs now userId ipAddress "LOGIN_FAILURE" latestLog
          newAlertId).newAlerts, a.type = "BRUTE_FORCE" ∧ a.severity = "HIGH") ∧
    (logs.countP (bruteForceWhere now userId ipAddress) ≤ 4 →
      (runLoginDetectionRules logs now userId ipAddress "LOGIN_FAILURE" latestLog
          newAlertId).newAlerts = []) := by
  unfold runLoginDetectionRules
  by_cases h : 5 ≤ logs.countP (bruteForceWhere now userId ipAddress)
  · simp [h]
    omega
  · simp only [if_pos rfl]
    constructor
    · intro h5; exact absurd h5 h
    · intro _; simp [h]

/-- C1 witness: five concrete failures trigger exactly one alert, four do
not. -/
theorem bruteForce_threshold_witness :
    (runLoginDetectionRules fiveFailures 600000 (some "u1") (some "1.2.3.4")
        "LOGIN_FAILURE" none "a1").newAlerts.length = 1 ∧
    (runLoginDetectionRules (fiveFailures.take 4) 600000 (some "u1") (some "1.2.3.4")
        "LOGIN_FAILURE" none "a1").newAlerts = [] :=
  ⟨((bruteForce_threshold fiveFailures 600000 (some "u1") (some "1.2.3.4")
      none "a1").1 (by decide)).1,
   (bruteForce_threshold (fiveFailures.take 4) 600000 (some "u1") (some "1.2.3.4")
      none "a1").2 (by decide)⟩

/-- C2: when the login handler records a LOGIN_FAILURE audit row and the
brute-force rule fires, the created alert's `auditLogId` is `null`, not the
id of the just-written row — the handler binds `failureLog` but never
passes it as `latestLog`.  Evaluation at the failing input: four prior
failures, the fifth successfully written (id `e5`), one alert created with
`auditLogId = none ≠ some 'e5'`. -/
theorem bruteForce_alert_reference_bug :
    ((loginFailureCase (fiveFailures.take 4) 600000 (some "u1") (some "1.2.3.4")
        (Except.ok (sampleFailure 5 500000)) "a1").2.1.newAlerts.map
          (fun a => a.auditLogId)) = [none] ∧
    (sampleFailure 5 500000).id = "e5" ∧
    (none : Option String) ≠ some "e5" := by decide

/-! ## Claims about the alert lifecycle -/

/-- A concrete open alert used by concrete witnesses. -/
def sampleAlert : Alert :=
  { id := "a1"
    userId := some "u1"
    auditLogId := none
    type := "BRUTE_FORCE"
    severity := "HIGH"
    status := "OPEN"
    description := "d"
    createdAt := 0
    resolvedAt := none }

/-- C3: for an existing alert and a status in {OPEN, ACKNOWLEDGED,
RESOLVED}, the PATCH handler sets `status` to the new value and
`resolvedAt` to now exactly when the new value is RESOLVED (null
otherwise); any status outside the enumeration is rejected with a 400
validation response and the store is unchanged. -/
theorem alert_transition (alerts : List Alert) (id : String) (now : Int) :
    (∀ s, s ∈ allowedStatuses → ∀ a, alerts.find? (fun x => x.id == id) = some a →
      patchAlertStatus alerts id (some s) now =
        (.ok { a with status := s,
                      resolvedAt := if s = "RESOLVED" then some now else none },
         alerts.map (fun x => if x.id == id then
           { a with status := s,
                    resolvedAt := if s = "RESOLVED" then some now else none } else x))) ∧
    (∀ s, s ∉ allowedStatuses →
      (∃ msg, (patchAlertStatus alerts id (some s) now).1 = .badRequest msg) ∧
      (patchAlertStatus alerts id (some s) now).2 = alerts) := by
  constructor
  · intro s hs a ha
    fin_cases hs <;> simp [patchAlertStatus, allowedStatuses, ha]
  · intro s hs
    by_cases he : s = ""
    · subst he; exact ⟨⟨"Status is required", rfl⟩, rfl⟩
    · constructor
      · exact ⟨"Invalid status value", by simp [patchAlertStatus, he, hs]⟩
      · simp [patchAlertStatus, he, hs]

/-- C3 witness: resolving a concrete alert stamps `resolvedAt`; the bogus
status `DONE` is rejected and leaves the store unchanged. -/
theorem alert_transition_witness :
    patchAlertStatus [sampleAlert] "a1" (some "RESOLVED") 42 =
      (.ok { sampleAlert with
               status := "RESOLVED"
               resolvedAt := if "RESOLVED" = "RESOLVED" then some 42 else none },
       [sampleAlert].map (fun x => if x.id == "a1" then
          { sampleAlert with
              status := "RESOLVED"
              resolvedAt := if "RESOLVED" = "RESOLVED" then some 42 else none }
        else x)) ∧
    (∃ msg, (patchAlertStatus [sampleAlert] "a1" (some "DONE") 42).1 = .badRequest msg) ∧
    (patchAlertStatus [sampleAlert] "a1" (some "DONE") 42).2 = [sampleAlert] :=
  ⟨(alert_transition [sampleAlert] "a1" 42).1 "RESOLVED" (by decide) sampleAlert (by decide),
   ((alert_transition [sampleAlert] "a1" 42).2 "DONE" (by decide)).1,
   ((alert_transition [sampleAlert] "a1" 42).2 "DONE" (by decide)).2⟩

/-- C4 counterexample: patching a nonexistent alert id with a valid status
yields the catch-all 500 internal error, not a 404 NotFound response, and
leaves the store unchanged — the claim as stated (NotFoundError) is false. -/
theorem alert_patch_missing_counterexample :
    (patchAlertStatus [sampleAlert] "zzz" (some "OPEN") 0).1.httpStatus = 500 ∧
    (500 : Nat) ≠ 404 ∧
    (patchAlertStatus [sampleAlert] "zzz" (some "OPEN") 0).2 = [sampleAlert] := by
  decide

/-- C4 (amended): for an alert id that does not exist and a valid status,
the PATCH handler fails with the generic 500 internal-error response
(`prisma.alert.update` throws into the catch-all) and no alert is created
or modified. -/
theorem alert_patch_missing (alerts : List Alert) (id s : String) (now : Int)
    (hs : s ∈ allowedStatuses)
    (hfind : alerts.find? (fun x => x.id == id) = none) :
    patchAlertStatus alerts id (some s) now = (.internalError, alerts) := by
  fin_cases hs <;> simp [patchAlertStatus, allowedStatuses, hfind]

/-- C4 witness: the amended behaviour at a concrete missing id. -/
theorem alert_patch_missing_witness :
    patchAlertStatus [sampleAlert] "zzz" (some "OPEN") 0 =
      (.internalError, [sampleAlert]) :=
  alert_patch_missing [sampleAlert] "zzz" "OPEN" 0 (by decide) (by decide)

/-! ## Claims about user incident reports -/

/-- Concrete database for report-incident witnesses: one audit row `e1`
owned by `u1`. -/
def reportDb : Db :=
  { users := [], auditLogs := [sampleFailure 1 100000], alerts := [] }

/-- C7 (amended): a supplied non-empty `activityId` that matches no audit
row owned by the caller makes the report fail 404 with no alert created
(an empty-string `activityId` is falsy and treated as absent); otherwise a
SUSPICIOUS_ACTIVITY/HIGH/OPEN alert is appended for the caller, linked to
the referenced row when one was supplied (and to nothing otherwise), with
the trimmed note as description or the fixed default when blank. -/
theorem report_incident_spec (db : Db) (uid : String) (activityId note : Option String)
    (now : Int) (newId : String) :
    (∀ aid, activityId = some aid → aid ≠ "" →
      db.auditLogs.find? (fun e => e.id == aid && e.userId == some uid) = none →
      reportIncident db (some uid) activityId note now newId = (.notFound, db.alerts)) ∧
    ((activityId = none ∨ activityId = some "") →
      reportIncident db (some uid) activityId note now newId =
        (.ok (reportedAlert uid none note now newId),
         db.alerts ++ [reportedAlert uid none note now newId])) ∧
    (∀ aid log, activityId = some aid → aid ≠ "" →
      db.auditLogs.find? (fun e => e.id == aid && e.userId == some uid) = some log →
      reportIncident db (some uid) activityId note now newId =
        (.ok (reportedAlert uid (some aid) note now newId),
         db.alerts ++ [reportedAlert uid (some aid) note now newId])) := by
  refine ⟨?_, ?_, ?_⟩
  · intro aid h1 h2 h3
    subst h1
    simp [reportIncident, h2, h3]
  · rintro (rfl | rfl) <;> simp [reportIncident, reportedAlert]
  · intro aid log h1 h2 h3
    subst h1
    have hid : log.id = aid := by
      have h := List.find?_some h3
      simp at h
      exact h.1
    simp [reportIncident, h2, h3, reportedAlert, hid]

/-- C7 witness: user `u2` reporting `u1`'s event gets 404 and no alert;
`u1` reporting the own event `e1` with a padded note gets a linked alert
with the trimmed note; a report without `activityId` gets an unlinked
alert. -/
theorem report_incident_witness :
    reportIncident reportDb (some "u2") (some "e1") none 5 "n1" =
      (.notFound, []) ∧
    reportIncident reportDb (some "u1") (some "e1") (some "  hacked  ") 5 "n1" =
      (.ok (reportedAlert "u1" (some "e1") (some "  hacked  ") 5 "n1"),
       [reportedAlert "u1" (some "e1") (some "  hacked  ") 5 "n1"]) ∧
    reportIncident reportDb (some "u1") none none 5 "n2" =
      (.ok (reportedAlert "u1" none none 5 "n2"),
       [reportedAlert "u1" none none 5 "n2"]) :=
  ⟨(report_incident_spec reportDb "u2" (some "e1") none 5 "n1").1 "e1" rfl
      (by decide) (by decide),
   (report_incident_spec reportDb "u1" (some "e1") (some "  hacked  ") 5 "n1").2.2
      "e1" (sampleFailure 1 100000) rfl (by decide) (by decide),
   (report_incident_spec reportDb "u1" none none 5 "n2").2.1 (Or.inl rfl)⟩

/-! ## Claims about the admin alert listing -/

/-- C8 (amended): a non-empty `status`, `severity` or `type` query value
that (after the handler's upper-casing) names no member of its allowed
enumeration makes GET `/alerts` answer the success envelope with an empty
data array, not an error; an empty-string value is falsy and acts as no
filter instead. -/
theorem alerts_invalid_filter_empty (db : Db) (status severity type : Option String)
    (h : truthyNotMem (status.map jsToUpperCase) allowedStatuses = true ∨
         truthyNotMem (severity.map jsToUpperCase) allowedSeverities = true ∨
         truthyNotMem (type.map jsToUpperCase) allowedTypes = true) :
    listAlerts db status severity type =
      { status := 200, success := true, data := [] } := by
  unfold listAlerts
  rcases h with h | h | h <;> simp [h]

/-- C8 witness: `status=done` (unknown even after upper-casing) on a store
with one alert returns success and no rows. -/
theorem alerts_invalid_filter_empty_witness :
    listAlerts { users := [], auditLogs := [], alerts := [sampleAlert] }
      (some "done") none none = { status := 200, success := true, data := [] } :=
  alerts_invalid_filter_empty _ (some "done") none none (Or.inl (by decide))

/-! ## Claims about the event recorder -/

/-- C9: `logAuditEvent` swallows persistence failures (returning `null`)
and surfaces the row on success; the enclosing login-failure request
answers the same 401 envelope whatever the recording outcome — recording
never changes the authentication response. -/
theorem audit_recording_best_effort (logs : List AuditLog) (err : String)
    (log : AuditLog) (now : Int) (userId ipAddress : Option String)
    (newAlertId : String) :
    (logAuditEvent logs (.error err)).1 = none ∧
    (logAuditEvent logs (.ok log)).1 = some log ∧
    ∀ w₁ w₂ : Except String AuditLog,
      (loginFailureCase logs now userId ipAddress w₁ newAlertId).1 =
        (loginFailureCase logs now userId ipAddress w₂ newAlertId).1 ∧
      (loginFailureCase logs now userId ipAddress w₁ newAlertId).1 =
        { status := 401, success := false, message := some "Invalid credentials" } :=
  ⟨rfl, rfl, fun _ _ => ⟨rfl, rfl⟩⟩

/-! ## Claims about audit-log listing pagination -/

/-- The `toNat` of a product of nonnegative integers. -/
theorem toNat_mul_of_nonneg {a b : Int} (ha : 0 ≤ a) (hb : 0 ≤ b) :
    (a * b).toNat = a.toNat * b.toNat := by
  rcases Int.eq_ofNat_of_zero_le ha with ⟨m, rfl⟩
  rcases Int.eq_ofNat_of_zero_le hb with ⟨n, rfl⟩
  norm_cast

/-- Skipping past the last page skips at least the whole result set. -/
theorem pagination_skip_ge (T Ln Pn : Nat) (hLn : 1 ≤ Ln)
    (h : (T + Ln - 1) / Ln < Pn) : T ≤ (Pn - 1) * Ln := by
  have h0 : 0 < Ln := hLn
  have hdiv := Nat.div_add_mod (T + Ln - 1) Ln
  have hmod := Nat.mod_lt (T + Ln - 1) h0
  have hq : (T + Ln - 1) / Ln ≤ Pn - 1 := by omega
  have hT : T ≤ ((T + Ln - 1) / Ln) * Ln := by
    generalize hqq : (T + Ln - 1) / Ln = q at hdiv
    generalize hrr : (T + Ln - 1) % Ln = r at hdiv hmod
    generalize hmm : Ln * q = m at hdiv
    have hqm : q * Ln = m := by rw [Nat.mul_comm]; exact hmm
    omega
  calc T ≤ ((T + Ln - 1) / Ln) * Ln := hT
    _ ≤ (Pn - 1) * Ln := Nat.mul_le_mul_right Ln hq

/-- A database with no rows at all. -/
def emptyDb : Db := { users := [], auditLogs := [], alerts := [] }

/-- The page-size formula claim C5 states, written from the spec's words
for comparison with `listAuditLogs`: the parsed limit clamped to
`[1, 200]`, with 50 only when the limit is absent or unparsable. -/
def specClampedLimit (limit : Option String) : Int :=
  match limit with
  | none => 50
  | some s =>
    match jsParseInt s with
    | none => 50
    | some v => min (max v 1) 200

/-- C5 counterexample: for `limit="0"` the handler's effective page size is
50 (JS `parseInt(limit) || 50` treats 0 as falsy), while the claim's
"parsed limit clamped to [1, 200]" yields 1 — the claim as stated is false
at `limit="0"`. -/
theorem audit_logs_limit_zero_counterexample :
    (listAuditLogs emptyDb { limit := some "0" }).limit = 50 ∧
    specClampedLimit (some "0") = 1 ∧
    (listAuditLogs emptyDb { limit := some "0" }).limit ≠
      specClampedLimit (some "0") := by decide

/-- C5 (amended): the effective page size is the parsed limit clamped to
[1, 200], defaulting to 50 when the limit is absent, unparsable **or
parses to 0**; the page number is at least 1; `totalPages` is the ceiling
of `total / limit`; and a page beyond `totalPages` yields a success
response with an empty `rows` array. -/
theorem audit_logs_pagination (db : Db) (qp : ListQuery) :
    (listAuditLogs db qp).success = true ∧
    (listAuditLogs db qp).limit =
      (match jsParseInt (qp.limit.getD "50") with
       | none => 50
       | some v => if v = 0 then 50 else min (max v 1) 200) ∧
    1 ≤ (listAuditLogs db qp).page ∧
    (listAuditLogs db qp).totalPages =
      (listAuditLogs db qp).total ⌈/⌉ (listAuditLogs db qp).limit.toNat ∧
    ((listAuditLogs db qp).totalPages < ((listAuditLogs db qp).page).toNat →
      (listAuditLogs db qp).rows = []) := by
  refine ⟨rfl, ?_, ?_, ?_, ?_⟩
  · show (min (max (jsOr (jsParseInt (qp.limit.getD "50")) 50) 1) 200) = _
    cases h : jsParseInt (qp.limit.getD "50") with
    | none => simp [jsOr]
    | some v =>
      by_cases hv : v = 0
      · subst hv; simp [jsOr]
      · simp [jsOr, hv]
  · exact le_max_right _ _
  · rfl
  · intro h
    show (((sortByDesc (fun e => e.createdAt)
        (db.auditLogs.filter (auditLogWhere db qp))).drop
          (((max (jsOr (jsParseInt (qp.page.getD "1")) 1) 1 - 1) *
            (min (max (jsOr (jsParseInt (qp.limit.getD "50")) 50) 1) 200)).toNat)).take
          (min (max (jsOr (jsParseInt (qp.limit.getD "50")) 50) 1) 200).toNat) = []
    set L : Int := min (max (jsOr (jsParseInt (qp.limit.getD "50")) 50) 1) 200 with hLdef
    set P : Int := max (jsOr (jsParseInt (qp.page.getD "1")) 1) 1 with hPdef
    set T : Nat := (db.auditLogs.filter (auditLogWhere db qp)).length with hTdef
    have hL : 1 ≤ L := le_min (le_max_right _ _) (by norm_num)
    have hP : 1 ≤ P := le_max_right _ _
    replace h : (T + L.toNat - 1) / L.toNat < P.toNat := h
    have hLn : 1 ≤ L.toNat := by omega
    have hskipN : T ≤ (P.toNat - 1) * L.toNat :=
      pagination_skip_ge T L.toNat P.toNat hLn h
    have htn : ((P - 1) * L).toNat = (P.toNat - 1) * L.toNat := by
      rw [toNat_mul_of_nonneg (by omega) (by omega)]
      congr 1
      omega
    have hlen : (sortByDesc (fun e => e.createdAt)
        (db.auditLogs.filter (auditLogWhere db qp))).length = T := by
      rw [length_sortByDesc]
    have hdrop : (sortByDesc (fun e => e.createdAt)
        (db.auditLogs.filter (auditLogWhere db qp))).drop (((P - 1) * L).toNat) = [] := by
      apply List.drop_eq_nil_of_le
      rw [hlen, htn]
      exact hskipN
    rw [hdrop]
    simp

/-- C5 witness: page 5 of an empty result set is a success with no rows. -/
theorem audit_logs_pagination_witness :
    (listAuditLogs emptyDb { page := some "5", limit := some "10" }).success = true ∧
    (listAuditLogs emptyDb { page := some "5", limit := some "10" }).rows = [] :=
  ⟨(audit_logs_pagination emptyDb { page := some "5", limit := some "10" }).1,
   (audit_logs_pagination emptyDb { page := some "5", limit := some "10" }).2.2.2.2
     (by decide)⟩

/-! ## Claims about the CSV export -/

/-- An unattributed LOGIN_FAILURE row used by the export counterexample. -/
def exportLog (i : Nat) (t : Int) : AuditLog :=
  { id := "x" ++ toString i
    userId := none
    eventType := "LOGIN_FAILURE"
    ipAddress := none
    userAgent := none
    geoLocation := none
    metadata := "{}"
    createdAt := t }

/-- A HIGH alert linked to audit row `x1`. -/
def exportHighAlert : Alert :=
  { id := "ah"
    userId := none
    auditLogId := some "x1"
    type := "BRUTE_FORCE"
    severity := "HIGH"
    status := "OPEN"
    description := "d"
    createdAt := 0
    resolvedAt := none }

/-- Database for the export counterexample: rows `x1` (with a HIGH linked
alert) and `x2` (no alert). -/
def exportDb : Db :=
  { users := [], auditLogs := [exportLog 1 1000, exportLog 2 2000],
    alerts := [exportHighAlert] }

/-- The filter set `severity=HIGH`. -/
def exportSeverityQuery : ListQuery := { severity := some "HIGH" }

/-- C6: with the filter `severity=HIGH` the export returns both rows — it
ignores the linked-alert severity filter the listing applies (the export
handler never destructures `severity`) — while the listing's `where`
selects only the row with a HIGH linked alert, so export and listing do
not select the same rows under the same filters. -/
theorem export_ignores_severity_filter :
    exportCsvRows exportDb exportSeverityQuery =
      [exportLog 2 2000, exportLog 1 1000] ∧
    exportDb.auditLogs.filter (auditLogWhere exportDb exportSeverityQuery) =
      [exportLog 1 1000] ∧
    exportCsvRows exportDb exportSeverityQuery ≠
      sortByDesc (fun e => e.createdAt)
        (exportDb.auditLogs.filter (auditLogWhere exportDb exportSeverityQuery)) := by
  decide

/-! ## Claims about the summary window -/

/-- C10 counterexample: for the raw window string `""` the response echoes
`"24h"`, not the caller's raw string — the claim's "echoes the caller's raw
string" is false at `window=""` (the empty string is falsy in
`req.query.window || '24h'`). -/
theorem summary_empty_window_counterexample :
    (getAuditLogSummary 0 (some "")).success = true ∧
    (getAuditLogSummary 0 (some "")).window = "24h" ∧
    (getAuditLogSummary 0 (some "")).window ≠ "" := by decide

/-- C10 (amended): the summary performs no window validation — every
window other than exactly `"7d"` (including `"24h"`, absent, empty or
arbitrary strings) is treated as the 24-hour window and answered with a
success envelope, never a validation error; the response echoes the
caller's raw string except that an absent or empty window echoes the
default `"24h"`. -/
theorem summary_window_no_validation (now : Int) (window : Option String) :
    (getAuditLogSummary now window).success = true ∧
    (getAuditLogSummary now window).status = 200 ∧
    (window ≠ some "7d" →
      (getAuditLogSummary now window).start = now - 24 * 60 * 60 * 1000) ∧
    (∀ s, window = some s → s ≠ "" →
      (getAuditLogSummary now window).window = s) ∧
    ((window = none ∨ window = some "") →
      (getAuditLogSummary now window).window = "24h") := by
  refine ⟨rfl, rfl, ?_, ?_, ?_⟩
  · intro h
    cases window with
    | none => rfl
    | some s =>
      by_cases he : s = ""
      · subst he; rfl
      · have h7 : s ≠ "7d" := fun hh => h (by rw [hh])
        simp [getAuditLogSummary, he, h7]
  · intro s hw hs
    subst hw
    by_cases h7 : s = "7d"
    · subst h7; rfl
    · simp [getAuditLogSummary, hs, h7]
  · rintro (rfl | rfl) <;> rfl

/-- C10 witness: `24h`, an arbitrary bogus string and an absent parameter
at concrete inputs. -/
theorem summary_window_no_validation_witness :
    (getAuditLogSummary 0 (some "24h")).start = 0 - 24 * 60 * 60 * 1000 ∧
    (getAuditLogSummary 0 (some "bogus")).window = "bogus" ∧
    (getAuditLogSummary 0 none).window = "24h" :=
  ⟨(summary_window_no_validation 0 (some "24h")).2.2.1 (by decide),
   (summary_window_no_validation 0 (some "bogus")).2.2.2.1 "bogus" rfl (by decide),
   (summary_window_no_validation 0 none).2.2.2.2 (Or.inl rfl)⟩

/-! ## Falsy empty-string counterexamples -/

/-- C7 counterexample: `activityId=""` is supplied and references no audit
event owned by `u1`, yet the handler (JS truthiness: `if (activityId)`)
treats it as absent and creates an unlinked alert instead of failing with
NotFound — the claim as stated is false at `activityId=""`. -/
theorem report_incident_empty_activity_counterexample :
    reportIncident reportDb (some "u1") (some "") none 5 "n3" =
      (.ok (reportedAlert "u1" none none 5 "n3"),
       [reportedAlert "u1" none none 5 "n3"]) ∧
    (reportIncident reportDb (some "u1") (some "") none 5 "n3").1 ≠
      .notFound := by decide

/-- C8 counterexample: the query value `status=""` lies outside the
allowed status enumeration, yet GET `/alerts` (JS truthiness:
`if (status && ...)`) treats it as no filter and returns every alert, not
an empty list — the claim as stated is false at `status=""`. -/
theorem alerts_empty_filter_counterexample :
    listAlerts { users := [], auditLogs := [], alerts := [sampleAlert] }
        (some "") none none =
      { status := 200, success := true, data := [sampleAlert] } ∧
    "" ∉ allowedStatuses ∧
    (listAlerts { users := [], auditLogs := [], alerts := [sampleAlert] }
        (some "") none none).data ≠ [] := by decide
